import Mathlib

/-!
Verification of the authorization and credential-lifecycle core of the
`app_model_backend` service, as a shallow embedding in Lean 4.

The embedding translates the Python source:
  * `app/core/permissions.py` — role/organization-type permission matrix;
  * `app/api/dependencies.py` — `get_current_user`, `get_team_member_context`,
    `require_permission`, `require_team_owner`;
  * `app/api/endpoints/teams.py` — `delete_team`;
  * `app/api/endpoints/organizations.py` — `update_organization_member`,
    `remove_organization_member`;
  * `app/api/endpoints/auth.py` — `logout`, `forgot_password_start`,
    `forgot_password_verify`, `forgot_password_confirm`.

Database tables become lists of records; an endpoint becomes a function from
the relevant state to either an error signal or the updated state.  SQLAlchemy
session semantics are modelled explicitly: attribute assignments on loaded rows
are pending in-memory changes, and `commit()` flushes every pending change, so
a state transition in the model happens exactly at the commit points of the
source.  `Result.scalar_one_or_none()` is modelled as a function that fails on
a multi-row result, exactly as SQLAlchemy's `MultipleResultsFound` does.

Cryptographic primitives (`app/core/security.py`) and the rate-limit helper
(`app/helpers/rate_limit.py`) are not part of the sources; they are modelled
from the specification's stated contracts and marked as such.
-/

namespace App

/-- HTTP-level error signals raised by the endpoints (`HTTPException` status
codes in the source, plus `internal` for uncaught Python exceptions, which the
framework surfaces as HTTP 500). -/
inductive HErr where
  | unauthorized (detail : String)
  | forbidden (detail : String)
  | notFound (detail : String)
  | badRequest (detail : String)
  | tooMany (detail : String)
  | internal (detail : String)
  deriving Repr, DecidableEq

/-! ## Permission matrix — `app/core/permissions.py` -/

/-- `class TeamRole(str, Enum)` — roles for team members. -/
inductive TeamRole where
  | admin
  | member
  | viewer
  deriving Repr, DecidableEq

/-- `class OrganizationType(str, Enum)` — types of organizations. -/
inductive OrganizationType where
  | provider
  | client
  | guest
  deriving Repr, DecidableEq

/-- `class Resource(str, Enum)` — resources that can be accessed. -/
inductive Resource where
  | team
  | team_member
  | project
  | service
  | invoice
  | report
  | organization
  deriving Repr, DecidableEq

/-- `class Action(str, Enum)` — actions that can be performed on resources. -/
inductive Action where
  | read
  | create
  | update
  | delete
  | invite
  | remove
  | manage
  deriving Repr, DecidableEq

/-- `TeamRole(value)` enum construction: returns the role for a valid value
string and `none` where Python would raise `ValueError`. -/
def TeamRole.ofString : String → Option TeamRole
  | "admin" => some .admin
  | "member" => some .member
  | "viewer" => some .viewer
  | _ => none

/-- `OrganizationType(value)` enum construction. -/
def OrganizationType.ofString : String → Option OrganizationType
  | "provider" => some .provider
  | "client" => some .client
  | "guest" => some .guest
  | _ => none

/-- `ROLE_PERMISSIONS` — the static permission matrix for team roles.  Python
stores a `Set` of pairs; membership is all that is ever queried, so a list with
the same elements is an equivalent model. -/
def ROLE_PERMISSIONS : TeamRole → List (Resource × Action)
  | .admin =>
    [(.team, .read), (.team, .update), (.team, .delete),
     (.team_member, .read), (.team_member, .invite), (.team_member, .remove),
     (.team_member, .manage),
     (.project, .read), (.project, .create), (.project, .update),
     (.project, .delete),
     (.service, .read), (.service, .create), (.service, .update),
     (.service, .delete),
     (.invoice, .read), (.invoice, .create),
     (.report, .read),
     (.organization, .read)]
  | .member =>
    [(.team, .read), (.team_member, .read),
     (.project, .read), (.project, .update),
     (.service, .read), (.service, .update),
     (.invoice, .read),
     (.report, .read)]
  | .viewer =>
    [(.team, .read), (.team_member, .read),
     (.project, .read), (.service, .read)]

/-- `ORG_TYPE_PERMISSIONS` — additional permissions for organization types. -/
def ORG_TYPE_PERMISSIONS : OrganizationType → List (Resource × Action)
  | .provider =>
    [(.service, .create), (.service, .update), (.service, .delete),
     (.project, .update), (.project, .create)]
  | .client =>
    [(.invoice, .read), (.project, .create), (.service, .read)]
  | .guest =>
    [(.project, .read), (.service, .read)]

/-- `has_permission(role, resource, action, org_type=None)`.  With an org type
the effective set is the union of the role's base set and the overlay;
membership in the union coincides with membership in the concatenation. -/
def has_permission (role : TeamRole) (resource : Resource) (action : Action)
    (org_type : Option OrganizationType := none) : Bool :=
  let role_perms := ROLE_PERMISSIONS role
  match org_type with
  | some t => (role_perms ++ ORG_TYPE_PERMISSIONS t).contains (resource, action)
  | none => role_perms.contains (resource, action)

/-! ## Data model — `app/models/*.py`

Rows carry the columns the embedded endpoints actually read or write; ids and
timestamps are natural numbers, hashes are strings produced by the (modelled)
hashing primitives. -/

/-- `app/models/user.py` — `User` row (columns consumed by the embedded
endpoints). -/
structure User where
  id : Nat
  email : String
  password : String
  token_version : Nat
  two_factor_enabled : Bool
  two_factor_secret : Option String
  deriving Repr, DecidableEq

/-- `app/models/team.py` — `Team` row.  `user_id` is the owner. -/
structure Team where
  id : Nat
  user_id : Nat
  personal_team : Bool
  archived : Bool
  archived_at : Option Nat
  deriving Repr, DecidableEq

/-- `app/models/team_member.py` — polymorphic `TeamMember` row:
`member_type` is `"user"` or `"organization"`, `member_id` points into the
table `member_type` names. -/
structure TeamMember where
  id : Nat
  team_id : Nat
  member_type : String
  member_id : Nat
  role : String
  status : String
  deriving Repr, DecidableEq

/-- `app/models/organization.py` — `Organization` row. -/
structure Organization where
  id : Nat
  organization_type : String
  deriving Repr, DecidableEq

/-- `app/models/organization_member.py` — `OrganizationMember` row. -/
structure OrganizationMember where
  id : Nat
  organization_id : Nat
  user_id : Nat
  role : String
  status : String
  deriving Repr, DecidableEq

/-- The relational state consumed by the authorization core. -/
structure DB where
  users : List User
  teams : List Team
  team_members : List TeamMember
  organizations : List Organization
  organization_members : List OrganizationMember
  deriving Repr, DecidableEq

/-- `Result.scalar_one_or_none()` — returns the single row, `none` for an
empty result, and fails (SQLAlchemy `MultipleResultsFound`, an uncaught
exception at the endpoints) when the result has more than one row. -/
def scalar_one_or_none {α : Type} : List α → Except String (Option α)
  | [] => .ok none
  | [x] => .ok (some x)
  | _ => .error "MultipleResultsFound"

/-! ## Membership resolver — `app/api/dependencies.py` -/

/-- The context dict returned by `get_team_member_context`. -/
structure Ctx where
  team_id : Nat
  team : Team
  role : TeamRole
  member_type : String
  organization : Option Organization
  org_type : Option OrganizationType
  deriving Repr, DecidableEq

/-- The `TeamMember ⋈ Organization ⋈ OrganizationMember` join of the third
resolver step: active organization-typed team memberships on `team_id` whose
organization has an active `OrganizationMember` row for `uid`.  The query has
no `ORDER BY`, so the engine's row order is unspecified; the model enumerates
in table order.  `.first()` in the source takes the head of this list. -/
def org_join (db : DB) (team_id uid : Nat) : List (TeamMember × Organization) :=
  db.team_members.flatMap (fun tm =>
    db.organizations.flatMap (fun org =>
      db.organization_members.filterMap (fun om =>
        if tm.member_type == "organization" && tm.member_id == org.id &&
           om.organization_id == org.id && tm.team_id == team_id &&
           om.user_id == uid && tm.status == "active" && om.status == "active"
        then some (tm, org) else none)))

/-- The filter of the direct-membership query of the second resolver step. -/
def direct_member_rows (db : DB) (team_id uid : Nat) : List TeamMember :=
  db.team_members.filter (fun tm =>
    tm.team_id == team_id && tm.member_type == "user" &&
    tm.member_id == uid && tm.status == "active")

/-- `get_team_member_context(team_id, current_user, db)` — the membership
resolver.  Order of evaluation, faithful to the source: team lookup (404 when
absent), ownership, direct active user membership, indirect membership via an
organization, otherwise 403.  Enum construction from a stored role/type string
raises `ValueError` in Python (an uncaught 500), modelled as `internal`. -/
def get_team_member_context (db : DB) (current_user : User) (team_id : Nat) :
    Except HErr Ctx :=
  match db.teams.find? (fun t => t.id == team_id) with
  | none => .error (.notFound "Team not found")
  | some team =>
    if team.user_id == current_user.id then
      .ok ⟨team_id, team, .admin, "owner", none, none⟩
    else
      match scalar_one_or_none (direct_member_rows db team_id current_user.id) with
      | .error _ => .error (.internal "MultipleResultsFound")
      | .ok (some direct_member) =>
        match TeamRole.ofString direct_member.role with
        | none => .error (.internal "ValueError")
        | some r => .ok ⟨team_id, team, r, "user", none, none⟩
      | .ok none =>
        match (org_join db team_id current_user.id).head? with
        | some (team_member, organization) =>
          match TeamRole.ofString team_member.role,
                OrganizationType.ofString organization.organization_type with
          | some r, some ot =>
            .ok ⟨team_id, team, r, "organization", some organization, some ot⟩
          | _, _ => .error (.internal "ValueError")
        | none => .error (.forbidden "You are not a member of this team")

/-- `require_permission(resource, action)` — the guard dependency: resolve the
membership context, then consult the permission matrix with the resolved role
and org type; 403 on denial, the context on approval. -/
def require_permission (resource : Resource) (action : Action) (db : DB)
    (current_user : User) (team_id : Nat) : Except HErr Ctx :=
  match get_team_member_context db current_user team_id with
  | .error e => .error e
  | .ok ctx =>
    if has_permission ctx.role resource action ctx.org_type then .ok ctx
    else .error (.forbidden "Insufficient permissions")

/-- `require_team_owner(team_id, current_user, db)` — the owner-only guard:
a single query filtered by team id and owner; 403 when it returns no row.
It contains no check of `personal_team`. -/
def require_team_owner (db : DB) (current_user : User) (team_id : Nat) :
    Except HErr Team :=
  match scalar_one_or_none (db.teams.filter (fun t =>
      t.id == team_id && t.user_id == current_user.id)) with
  | .error _ => .error (.internal "MultipleResultsFound")
  | .ok none => .error (.forbidden "Team not found or you don't have permission")
  | .ok (some team) => .ok team

/-! ## Team deletion — `app/api/endpoints/teams.py` -/

/-- `delete_team(team_id, context, db)` — guarded by
`require_permission(Resource.TEAM, Action.DELETE)`; rejects personal teams
with 400, otherwise archives (soft delete).  The archive write is committed
only on the success path, so an error leaves `teams` unchanged. -/
def delete_team (db : DB) (current_user : User) (team_id : Nat)
    (now : Nat) : Except HErr DB :=
  match require_permission .team .delete db current_user team_id with
  | .error e => .error e
  | .ok ctx =>
    if ctx.team.personal_team then
      .error (.badRequest "Cannot delete personal teams")
    else
      .ok { db with teams := db.teams.map (fun t =>
        if t.id == ctx.team.id then
          { t with archived := true, archived_at := some now }
        else t) }

/-! ## Organization member management — `app/api/endpoints/organizations.py` -/

/-- The admin check shared by the two member-mutating endpoints: an active
admin `OrganizationMember` row of `organization_id` for the caller. -/
def org_admin_rows (members : List OrganizationMember)
    (organization_id user_id : Nat) : List OrganizationMember :=
  members.filter (fun m =>
    m.organization_id == organization_id && m.user_id == user_id &&
    m.role == "admin" && m.status == "active")

/-- The member-lookup query of both endpoints. -/
def org_member_rows (members : List OrganizationMember)
    (organization_id user_id : Nat) : List OrganizationMember :=
  members.filter (fun m =>
    m.organization_id == organization_id && m.user_id == user_id)

/-- The active-admin count query of `remove_organization_member`. -/
def active_admin_rows (members : List OrganizationMember)
    (organization_id : Nat) : List OrganizationMember :=
  members.filter (fun m =>
    m.organization_id == organization_id && m.role == "admin" &&
    m.status == "active")

/-- The `uq_organization_user` unique constraint of the
`organization_members` table: no two rows share (organization_id, user_id). -/
def OrgMembersWf (members : List OrganizationMember) : Prop :=
  members.Pairwise (fun a b =>
    ¬(a.organization_id = b.organization_id ∧ a.user_id = b.user_id))

/-- `update_organization_member(organization_id, user_id, member_update)` —
admin check, member lookup, then the update applies whichever of role/status
the payload sets.  The source contains no last-admin check on this path. -/
def update_organization_member (members : List OrganizationMember)
    (current_user_id organization_id user_id : Nat)
    (new_role new_status : Option String) :
    Except HErr (List OrganizationMember) :=
  match scalar_one_or_none (org_admin_rows members organization_id current_user_id) with
  | .error _ => .error (.internal "MultipleResultsFound")
  | .ok none => .error (.forbidden "Only organization admins can update members")
  | .ok (some _) =>
    match scalar_one_or_none (org_member_rows members organization_id user_id) with
    | .error _ => .error (.internal "MultipleResultsFound")
    | .ok none => .error (.notFound "Member not found")
    | .ok (some member) =>
      .ok (members.map (fun m =>
        if m.id == member.id then
          { m with role := new_role.getD m.role,
                   status := new_status.getD m.status }
        else m))

/-- `remove_organization_member(organization_id, user_id)` — admin check,
member lookup, and, when the target row has role admin, a guard rejecting the
removal with 400 unless more than one active admin remains. -/
def remove_organization_member (members : List OrganizationMember)
    (current_user_id organization_id user_id : Nat) :
    Except HErr (List OrganizationMember) :=
  match scalar_one_or_none (org_admin_rows members organization_id current_user_id) with
  | .error _ => .error (.internal "MultipleResultsFound")
  | .ok none => .error (.forbidden "Only organization admins can remove members")
  | .ok (some _) =>
    match scalar_one_or_none (org_member_rows members organization_id user_id) with
    | .error _ => .error (.internal "MultipleResultsFound")
    | .ok none => .error (.notFound "Member not found")
    | .ok (some member) =>
      if member.role == "admin" &&
         (active_admin_rows members organization_id).length ≤ 1 then
        .error (.badRequest "Cannot remove the last admin from the organization")
      else
        .ok (members.filter (fun m => m.id != member.id))

/-! ## Credential and session lifecycle — `app/api/endpoints/auth.py`,
`app/api/dependencies.py`

The token codec, hashing, OTP and TOTP primitives live in
`app/core/security.py`, which is not among the sources; they are modelled
from the specification's external-interface contracts (§6). -/

/-- The claim set of a decoded JWT.  `payload.get` returns `None` for an
absent claim, hence the `Option` claims. -/
structure TokenClaims where
  sub : Option Nat
  tv : Option Nat
  scope : Option String
  exp : Nat
  deriving Repr, DecidableEq

/-- A bearer token: the raw encoded string (the blacklist key is built from
it) together with its decode result.  Modelled from the spec: the token codec
of `app/core/security.py` returns the claims, or raises (`decoded = none`) on
a bad signature or expiry. -/
structure Token where
  raw : String
  decoded : Option TokenClaims
  deriving Repr, DecidableEq

/-- Modelled from the spec: `get_password_hash` of `app/core/security.py`, a
bcrypt-class salted one-way hash, modelled as an injective tagging function. -/
def get_password_hash (plaintext : String) : String :=
  "bcrypt$" ++ plaintext

/-- Modelled from the spec: `hash_otp` of `app/core/security.py` (bcrypt of a
6-digit numeric code), modelled as an injective tagging function. -/
def hash_otp (otp : String) : String :=
  "otp$" ++ otp

/-- Modelled from the spec: `verify_otp(code, digest)`. -/
def verify_otp (code digest : String) : Bool :=
  hash_otp code == digest

/-- Modelled from the spec: `verify_totp(secret, code)` with the time window
abstracted away — the code matching the secret's current value verifies. -/
def verify_totp (secret code : String) : Bool :=
  code == "totp$" ++ secret

/-- Modelled from the spec: `create_access_token(data={sub}, token_version)`
issues a signed token with claims `{sub, tv, exp, iat}`. -/
def create_access_token (uid token_version exp : Nat) : Token :=
  { raw := "jwt$" ++ toString uid ++ "$" ++ toString token_version,
    decoded := some ⟨some uid, some token_version, none, exp⟩ }

/-- Modelled from the spec: `create_reset_session_token(user_id,
token_version)` issues a narrowly scoped token with `scope=pwd_reset` bound to
the user's current token version. -/
def create_reset_session_token (uid token_version : Nat) : Token :=
  { raw := "rst$" ++ toString uid ++ "$" ++ toString token_version,
    decoded := some ⟨some uid, some token_version, some "pwd_reset", 0⟩ }

/-- `user.token_version or 1` — Python truthiness: `0` and `None` fall back
to `1`; the column is non-nullable so only the `0` case needs the model. -/
def tvOr1 (n : Nat) : Nat := if n == 0 then 1 else n

/-- `get_current_user(token, db)` — the authentication dependency of every
protected endpoint: decode the token, require the `sub` and `tv` claims, load
the user, and accept exactly when `int(tv) == int(user.token_version or 1)`.
It never consults the redis blacklist, so its result does not depend on it. -/
def get_current_user (users : List User) (tok : Token) : Except HErr User :=
  match tok.decoded with
  | none => .error (.unauthorized "Credenciais inválidas")
  | some payload =>
    match payload.sub, payload.tv with
    | some uid, some tv =>
      match users.find? (fun u => u.id == uid) with
      | none => .error (.unauthorized "Credenciais inválidas")
      | some user =>
        if tv == tvOr1 user.token_version then .ok user
        else .error (.unauthorized "Credenciais inválidas")
    | _, _ => .error (.unauthorized "Credenciais inválidas")

/-- The volatile store: the set of keys written with `setex` (values are
always `"revoked"` for blacklist entries; TTLs are kept alongside). -/
abbrev Redis := List (String × Nat)

/-- `logout(authorization, redis)` — in non-debug mode: decode the token
(`jwt.decode` raises on failure, an uncaught 500), compute the remaining TTL
from its expiry, and store `blacklist:` ++ token with that TTL. -/
def logout (debugMode : Bool) (redis : Redis) (tok : Token) (now : Nat) :
    Except HErr Redis :=
  if debugMode then .ok redis
  else
    match tok.decoded with
    | none => .error (.internal "JWTError")
    | some payload =>
      .ok (redis ++ [("blacklist:" ++ tok.raw, payload.exp - now)])

/-- `app/models/password_reset.py` — `PasswordReset` row. -/
structure PasswordReset where
  id : Nat
  user_id : Option Nat
  email : String
  otp_hash : Option String
  otp_expires_at : Option Nat
  otp_verified : Bool
  require_totp : Bool
  totp_verified : Bool
  reset_session_issued_at : Option Nat
  consumed_at : Option Nat
  attempts : Nat
  deriving Repr, DecidableEq

/-- The state the password-reset endpoints read and write. -/
structure AuthState where
  users : List User
  password_resets : List PasswordReset
  deriving Repr, DecidableEq

/-- Commit of pending changes to one `PasswordReset` row (SQLAlchemy flushes
every pending attribute assignment of the session at `commit()`). -/
def AuthState.updatePR (st : AuthState) (prId : Nat)
    (f : PasswordReset → PasswordReset) : AuthState :=
  { st with password_resets := st.password_resets.map (fun q =>
      if q.id == prId then f q else q) }

/-- The unconsumed `PasswordReset` rows for an email — the filter of the
verify query.  The query orders by id descending but sets no limit; ordering
does not affect `scalar_one_or_none`, which only distinguishes zero, one, or
many rows. -/
def unconsumed_for_email (st : AuthState) (email : String) : List PasswordReset :=
  st.password_resets.filter (fun pr =>
    pr.email == email && pr.consumed_at == none)

/-- The unconsumed `PasswordReset` rows for a user id — the filter of the
confirm query (same unlimited ordered query, keyed by `user_id`). -/
def unconsumed_for_user (st : AuthState) (uid : Nat) : List PasswordReset :=
  st.password_resets.filter (fun pr =>
    pr.user_id == some uid && pr.consumed_at == none)

/-- `forgot_password_start(payload, request, db)` — rate-limit check
(`allow("fp:start", email, ip, 5, 900)`, modelled from the spec as the boolean
`rateAllowed`), then, when the email belongs to a user, insert a fresh
`PasswordReset` with the OTP hash, a 10-minute expiry, and `require_totp`
mirroring the user's 2FA flag.  `otp` stands for the generated code and
`nextId` for the database-assigned primary key.  The response is 202 either
way (anti-enumeration). -/
def forgot_password_start (st : AuthState) (email otp : String)
    (rateAllowed : Bool) (now nextId : Nat) : AuthState × Option HErr :=
  if !rateAllowed then (st, some (.tooMany "Too many requests"))
  else
    match st.users.find? (fun u => u.email == email) with
    | none => (st, none)
    | some user =>
      ({ st with password_resets := st.password_resets ++
          [⟨nextId, some user.id, email, some (hash_otp otp),
            some (now + 600), false, user.two_factor_enabled, false,
            none, none, 0⟩] }, none)

/-- `forgot_password_verify(payload, request, db)` — rate-limit check, single
unconsumed record extraction, expiry and OTP check (attempts increment on a
failed match), in-memory `otp_verified = True`, then the TOTP check when
`require_totp` (its failure path commits the attempts increment together with
the pending `otp_verified` change), and on success the stamped record plus a
reset-session token.  A record with no `user_id` on the success path hits
`user.id` on `None` (uncaught 500) after the commit. -/
def forgot_password_verify (st : AuthState) (email otp : String)
    (totp : Option String) (rateAllowed : Bool) (now : Nat) :
    AuthState × Except HErr Token :=
  if !rateAllowed then (st, .error (.tooMany "Too many attempts"))
  else
    match scalar_one_or_none (unconsumed_for_email st email) with
    | .error _ => (st, .error (.internal "MultipleResultsFound"))
    | .ok none => (st, .error (.badRequest "Invalid or expired code"))
    | .ok (some pr) =>
      match pr.otp_hash, pr.otp_expires_at with
      | none, _ => (st, .error (.badRequest "Invalid or expired code"))
      | some _, none => (st, .error (.badRequest "Invalid or expired code"))
      | some oh, some expiry =>
        if expiry < now then (st, .error (.badRequest "Invalid or expired code"))
        else if otp == "" || !verify_otp otp oh then
          (st.updatePR pr.id (fun q => { q with attempts := q.attempts + 1 }),
           .error (.badRequest "Invalid or expired code"))
        else
          let user? : Option User := match pr.user_id with
            | some uid => st.users.find? (fun u => u.id == uid)
            | none => none
          if pr.require_totp then
            match user? with
            | none =>
              (st.updatePR pr.id (fun q =>
                 { q with otp_verified := true, attempts := q.attempts + 1 }),
               .error (.badRequest "Invalid or missing authenticator code"))
            | some user =>
              match user.two_factor_secret, totp with
              | none, _ =>
                (st.updatePR pr.id (fun q =>
                   { q with otp_verified := true, attempts := q.attempts + 1 }),
                 .error (.badRequest "Invalid or missing authenticator code"))
              | some _, none =>
                (st.updatePR pr.id (fun q =>
                   { q with otp_verified := true, attempts := q.attempts + 1 }),
                 .error (.badRequest "Invalid or missing authenticator code"))
              | some secret, some code =>
                if code == "" || !verify_totp secret code then
                  (st.updatePR pr.id (fun q =>
                     { q with otp_verified := true, attempts := q.attempts + 1 }),
                   .error (.badRequest "Invalid or missing authenticator code"))
                else
                  (st.updatePR pr.id (fun q =>
                     { q with otp_verified := true, totp_verified := true,
                              reset_session_issued_at := some now }),
                   .ok (create_reset_session_token user.id user.token_version))
          else
            let st' := st.updatePR pr.id (fun q =>
              { q with otp_verified := true,
                       reset_session_issued_at := some now })
            match user? with
            | none => (st', .error (.internal "AttributeError"))
            | some user =>
              (st', .ok (create_reset_session_token user.id user.token_version))

/-- `forgot_password_confirm(payload, request, db)` — bearer header with a
`scope=pwd_reset` claim required, user loaded from `sub`, then the password
hash and `token_version = (token_version or 1) + 1` are committed; afterwards
the most recent unconsumed `PasswordReset` (an unlimited single-row
extraction) is marked consumed when present.  The second result component is
`none` on the 204 success path.  Note the user mutation is committed before
the record extraction, so a multi-row failure there still leaves the new
password and token version in place. -/
def forgot_password_confirm (st : AuthState) (auth : Option Token)
    (new_password : String) (now : Nat) : AuthState × Option HErr :=
  match auth with
  | none => (st, some (.unauthorized "Missing reset session"))
  | some tok =>
    match tok.decoded with
    | none => (st, some (.unauthorized "Invalid reset session"))
    | some claims =>
      if claims.scope != some "pwd_reset" then
        (st, some (.unauthorized "Invalid reset session"))
      else
        match claims.sub with
        | none => (st, some (.internal "KeyError"))
        | some uid =>
          match st.users.find? (fun u => u.id == uid) with
          | none => (st, some (.unauthorized "Invalid reset session"))
          | some _ =>
            let st₁ : AuthState := { st with users := st.users.map (fun u =>
              if u.id == uid then
                { u with password := get_password_hash new_password,
                         token_version := tvOr1 u.token_version + 1 }
              else u) }
            match scalar_one_or_none (unconsumed_for_user st₁ uid) with
            | .error _ => (st₁, some (.internal "MultipleResultsFound"))
            | .ok none => (st₁, none)
            | .ok (some pr) =>
              (st₁.updatePR pr.id (fun q => { q with consumed_at := some now }),
               none)

end App

/-! ## Helper lemmas -/

namespace App

/-- A result with at least two rows makes `scalar_one_or_none` fail, exactly
as SQLAlchemy's `MultipleResultsFound`. -/
theorem scalar_error_of_two {α : Type} {l : List α} (h : 2 ≤ l.length) :
    scalar_one_or_none l = .error "MultipleResultsFound" := by
  match l with
  | [] => simp at h
  | [x] => simp at h
  | x :: y :: t => rfl

/-- In a list whose elements are pairwise key-distinct, a filter that pins the
key down to a single present element returns exactly that element. -/
theorem filter_eq_single_of_key {α : Type} {R : α → α → Prop} {l : List α}
    {p : α → Bool} {x : α}
    (hpw : l.Pairwise R) (hx : x ∈ l) (hpx : p x = true)
    (hkey : ∀ a b, p a = true → p b = true → R a b → False) :
    l.filter p = [x] := by
  induction l with
  | nil => exact absurd hx (List.not_mem_nil x)
  | cons h t ih =>
    rcases List.mem_cons.mp hx with rfl | hxt
    · have ht : t.filter p = [] := by
        rw [List.filter_eq_nil_iff]
        intro y hy hpy
        exact hkey x y hpx hpy ((List.pairwise_cons.mp hpw).1 y hy)
      simp [List.filter_cons, hpx, ht]
    · have hph : p h = false := by
        by_contra hc
        have hph' : p h = true := by
          cases hh : p h
          · exact absurd hh hc
          · rfl
        exact hkey h x hph' hpx ((List.pairwise_cons.mp hpw).1 x hxt)
      rw [List.filter_cons_of_neg (by simp [hph])]
      exact ih (List.pairwise_cons.mp hpw).2 hxt

/-- Every pair produced by the organisation join satisfies the join and
filter conditions of the query. -/
theorem mem_org_join {db : DB} {tid uid : Nat} {tm : TeamMember}
    {org : Organization} :
    (tm, org) ∈ org_join db tid uid →
      tm ∈ db.team_members ∧ org ∈ db.organizations ∧
      ∃ om, om ∈ db.organization_members ∧
        tm.member_type = "organization" ∧ tm.member_id = org.id ∧
        om.organization_id = org.id ∧ tm.team_id = tid ∧ om.user_id = uid ∧
        tm.status = "active" ∧ om.status = "active" := by
  intro h
  simp only [org_join, List.mem_flatMap, List.mem_filterMap] at h
  obtain ⟨tm', htm', org', horg', om, hom, hif⟩ := h
  by_cases hc : (tm'.member_type == "organization" && tm'.member_id == org'.id &&
      om.organization_id == org'.id && tm'.team_id == tid &&
      om.user_id == uid && tm'.status == "active" && om.status == "active") = true
  · rw [if_pos hc] at hif
    injection hif with hpair
    have h1 : tm' = tm := congrArg Prod.fst hpair
    have h2 : org' = org := congrArg Prod.snd hpair
    subst h1; subst h2
    simp only [Bool.and_eq_true, beq_iff_eq] at hc
    exact ⟨htm', horg', om, hom, hc.1.1.1.1.1.1, hc.1.1.1.1.1.2,
           hc.1.1.1.1.2, hc.1.1.1.2, hc.1.1.2, hc.1.2, hc.2⟩
  · rw [if_neg hc] at hif
    exact absurd hif (by simp)

/-- A successfully resolved context carries the team row the resolver looked
up, whichever membership path produced the context. -/
theorem ctx_team_of_ok {db : DB} {u : User} {tid : Nat} {ctx : Ctx}
    (h : get_team_member_context db u tid = .ok ctx) :
    db.teams.find? (fun t => t.id == tid) = some ctx.team ∧ ctx.team_id = tid := by
  unfold get_team_member_context at h
  split at h
  · exact absurd h (by simp)
  · rename_i team hfind
    split at h
    · injection h with h'; subst h'; exact ⟨hfind, rfl⟩
    · split at h
      · exact absurd h (by simp)
      · split at h
        · exact absurd h (by simp)
        · injection h with h'; subst h'; exact ⟨hfind, rfl⟩
      · split at h
        · split at h
          · injection h with h'; subst h'; exact ⟨hfind, rfl⟩
          · exact absurd h (by simp)
        · exact absurd h (by simp)

/-- An id-keyed in-place update commutes with an id-keyed `find?`. -/
theorem find?_map_ite_id (l : List User) (uid : Nat) (f : User → User)
    (hf : ∀ u, (f u).id = u.id) {user : User}
    (h : l.find? (fun u => u.id == uid) = some user) :
    (l.map (fun u => if u.id == uid then f u else u)).find? (fun u => u.id == uid)
      = some (f user) := by
  induction l with
  | nil => simp at h
  | cons a t ih =>
    by_cases ha : (a.id == uid) = true
    · rw [List.find?_cons_of_pos (p := fun (u : User) => u.id == uid) t ha] at h
      injection h with h; subst h
      simp only [List.map_cons, if_pos ha]
      exact List.find?_cons_of_pos (p := fun (u : User) => u.id == uid) _
        (by simpa [hf a] using ha)
    · rw [List.find?_cons_of_neg (p := fun (u : User) => u.id == uid) t ha] at h
      simp only [List.map_cons, if_neg ha]
      rw [List.find?_cons_of_neg (p := fun (u : User) => u.id == uid) _ ha]
      exact ih h

/-- Python's `n or 1` is the identity on positive counters. -/
theorem tvOr1_of_pos {n : Nat} (h : 1 ≤ n) : tvOr1 n = n := by
  unfold tvOr1
  simp [Nat.pos_iff_ne_zero.mp h]

/-- After a confirm call that passes the token and user checks, the user table
is the original one with the password hash and bumped token version written
into the addressed user — whatever the record-consumption step did. -/
theorem confirm_users_shape :
    ∀ (st : AuthState) (tok : Token) (claims : TokenClaims) (uid : Nat)
      (user : User) (npw : String) (now : Nat),
      tok.decoded = some claims →
      claims.scope = some "pwd_reset" →
      claims.sub = some uid →
      st.users.find? (fun u => u.id == uid) = some user →
      (forgot_password_confirm st (some tok) npw now).1.users =
        st.users.map (fun u =>
          if u.id == uid then
            { u with password := get_password_hash npw,
                     token_version := tvOr1 u.token_version + 1 }
          else u) := by
  intro st tok claims uid user npw now hdec hscope hsub hfind
  simp only [forgot_password_confirm, hdec, hscope, hsub, hfind, bne_self_eq_false,
    Bool.false_eq_true, if_false]
  split
  · rfl
  · rfl
  · simp [AuthState.updatePR]

/-- Consuming the single unconsumed record of a user empties the unconsumed
filter for that user. -/
theorem unconsumed_after_consume (l : List PasswordReset) (uid now' : Nat)
    (pr : PasswordReset)
    (h : l.filter (fun q => q.user_id == some uid && q.consumed_at == none) = [pr]) :
    (l.map (fun q => if q.id == pr.id then { q with consumed_at := some now' } else q)).filter
      (fun q => q.user_id == some uid && q.consumed_at == none) = [] := by
  rw [List.filter_eq_nil_iff]
  intro x hx
  obtain ⟨y, hy, rfl⟩ := List.mem_map.mp hx
  by_cases hid : (y.id == pr.id) = true
  · simp [beq_iff_eq.mp hid]
  · rw [if_neg hid]
    intro hpy
    have hmem : y ∈ l.filter (fun q => q.user_id == some uid && q.consumed_at == none) :=
      List.mem_filter.mpr ⟨hy, hpy⟩
    rw [h] at hmem
    have hyp : y = pr := by simpa using hmem
    subst hyp
    exact hid (by simp)

/-- A confirm call over at most one unconsumed record succeeds (204) and
leaves no unconsumed record for the user behind. -/
theorem confirm_post :
    ∀ (st : AuthState) (tok : Token) (claims : TokenClaims) (uid : Nat)
      (user : User) (npw : String) (now : Nat),
      tok.decoded = some claims →
      claims.scope = some "pwd_reset" →
      claims.sub = some uid →
      st.users.find? (fun u => u.id == uid) = some user →
      (unconsumed_for_user st uid).length ≤ 1 →
      (forgot_password_confirm st (some tok) npw now).2 = none ∧
      unconsumed_for_user (forgot_password_confirm st (some tok) npw now).1 uid = [] := by
  intro st tok claims uid user npw now hdec hscope hsub hfind hlen
  cases hl : st.password_resets.filter
      (fun pr => pr.user_id == some uid && pr.consumed_at == none) with
  | nil =>
    constructor <;>
    · simp only [forgot_password_confirm, hdec, hscope, hsub, hfind,
        bne_self_eq_false, Bool.false_eq_true, if_false, unconsumed_for_user]
      rw [hl]
      simp [scalar_one_or_none, hl]
  | cons pr rest =>
    cases rest with
    | cons b bs =>
      exact absurd hlen (by simp [unconsumed_for_user, hl])
    | nil =>
      have hconsume := unconsumed_after_consume st.password_resets uid now pr hl
      constructor
      · simp only [forgot_password_confirm, hdec, hscope, hsub, hfind,
          bne_self_eq_false, Bool.false_eq_true, if_false, unconsumed_for_user]
        rw [hl]
        simp [scalar_one_or_none]
      · simp only [forgot_password_confirm, hdec, hscope, hsub, hfind,
          bne_self_eq_false, Bool.false_eq_true, if_false, unconsumed_for_user,
          AuthState.updatePR]
        rw [hl]
        simp only [scalar_one_or_none]
        exact hconsume

end App

/-! ## The claims -/

namespace App

/-- C9: Monotonic permission inheritance on the base matrix (no org type):
whatever `has_permission` grants to viewer it grants to member, and whatever it
grants to member it grants to admin. -/
theorem c9_permission_monotonicity :
    ∀ (r : Resource) (a : Action),
      (has_permission .viewer r a none = true → has_permission .member r a none = true) ∧
      (has_permission .member r a none = true → has_permission .admin r a none = true) := by
  intro r a
  constructor <;> (cases r <;> cases a <;> decide)

/-- Closed witness for `c9_permission_monotonicity`: instantiated at
resource = project, action = read, discharging both hypotheses. -/
theorem c9_permission_monotonicity_witness :
    has_permission .member .project .read none = true ∧
    has_permission .admin .project .read none = true :=
  ⟨(c9_permission_monotonicity .project .read).1 (by decide),
   (c9_permission_monotonicity .project .read).2
     ((c9_permission_monotonicity .project .read).1 (by decide))⟩

end App

namespace App

/-- C1: the claim states that after a successful non-debug logout — which
stores `blacklist:` ++ token with the token's remaining TTL — every subsequent
protected request presenting that exact token is rejected as Unauthorized.
The code writes the blacklist entry but `get_current_user` never reads it
(no dependency or middleware consults `blacklist:*` keys), contradicting the
repository's own test `test_logout_success`, which asserts 401 for exactly
this request.  At the concrete input below, logout succeeds and writes the
key, yet the same token is still accepted. -/
theorem c1_logout_blacklist_unread :
    logout false [] ⟨"tok1", some ⟨some 1, some 1, none, 1000⟩⟩ 100 =
      .ok [("blacklist:tok1", 900)] ∧
    get_current_user [⟨1, "a@x.com", "bcrypt$pw", 1, false, none⟩]
        ⟨"tok1", some ⟨some 1, some 1, none, 1000⟩⟩ =
      .ok ⟨1, "a@x.com", "bcrypt$pw", 1, false, none⟩ :=
  ⟨rfl, rfl⟩

/-- C2 counterexample: the claim requires demoting the sole active admin via
`update_organization_member` to fail with a Conflict error and leave the table
unchanged.  At this concrete input — an organization whose only member is its
sole active admin, demoting themselves — the update succeeds (no error is
raised) and leaves the organization with zero active admins. -/
theorem c2_demote_last_admin_counterexample :
    update_organization_member [⟨1, 1, 1, "admin", "active"⟩] 1 1 1
        (some "member") none =
      .ok [⟨1, 1, 1, "member", "active"⟩] ∧
    active_admin_rows [⟨1, 1, 1, "member", "active"⟩] 1 = [] :=
  ⟨rfl, rfl⟩

/-- C2 amended: removing the sole active admin of an organization via
`remove_organization_member` fails with 400 Bad Request ("Cannot remove the
last admin") — an error result leaves the membership table unchanged, since
the deletion is only committed on the success path — but demoting the sole
active admin via `update_organization_member` is not guarded at all and can
leave the organization without any active admin. -/
theorem c2_remove_last_admin_guard :
    ∀ (members : List OrganizationMember) (orgId : Nat) (M : OrganizationMember),
      OrgMembersWf members →
      active_admin_rows members orgId = [M] →
      remove_organization_member members M.user_id orgId M.user_id =
        .error (.badRequest "Cannot remove the last admin from the organization") := by
  intro members orgId M hwf hsole
  have hM_mem_filter : M ∈ active_admin_rows members orgId := by
    rw [hsole]; exact List.mem_cons_self _ _
  have hM_mem : M ∈ members := List.mem_of_mem_filter hM_mem_filter
  have hM_props := List.of_mem_filter hM_mem_filter
  simp only [Bool.and_eq_true, beq_iff_eq] at hM_props
  obtain ⟨⟨hMorg, hMrole⟩, hMstatus⟩ := hM_props
  have hadmin : org_admin_rows members orgId M.user_id = [M] := by
    apply filter_eq_single_of_key hwf hM_mem
    · simp [org_admin_rows, hMorg, hMrole, hMstatus]
    · intro a b hpa hpb hR
      simp only [Bool.and_eq_true, beq_iff_eq] at hpa hpb
      exact hR ⟨hpa.1.1.1.trans hpb.1.1.1.symm, hpa.1.1.2.trans hpb.1.1.2.symm⟩
  have hlookup : org_member_rows members orgId M.user_id = [M] := by
    apply filter_eq_single_of_key hwf hM_mem
    · simp [org_member_rows, hMorg]
    · intro a b hpa hpb hR
      simp only [Bool.and_eq_true, beq_iff_eq] at hpa hpb
      exact hR ⟨hpa.1.trans hpb.1.symm, hpa.2.trans hpb.2.symm⟩
  unfold remove_organization_member
  rw [hadmin, hlookup]
  simp [scalar_one_or_none, hMrole, hsole]

/-- Witness for `c2_remove_last_admin_guard` at a two-member organization
whose only active admin removes themselves. -/
theorem c2_remove_last_admin_guard_witness :
    remove_organization_member
        [⟨1, 7, 1, "admin", "active"⟩, ⟨2, 7, 2, "member", "active"⟩] 1 7 1 =
      .error (.badRequest "Cannot remove the last admin from the organization") :=
  c2_remove_last_admin_guard
    [⟨1, 7, 1, "admin", "active"⟩, ⟨2, 7, 2, "member", "active"⟩] 7
    ⟨1, 7, 1, "admin", "active"⟩ (by unfold OrgMembersWf; decide) rfl

end App

namespace App

/-- C3: a bearer token that decodes and references an existing user is
accepted by `get_current_user` exactly when its `tv` claim equals the user's
current `token_version` (first conjunct); `forgot_password_confirm` bumps the
referenced user's `token_version` by exactly 1 (second conjunct); hence after
a confirm, a token carrying the pre-change `tv` is rejected by the
authentication dependency of every protected endpoint while a token carrying
the new `tv` is accepted (third conjunct). -/
theorem c3_token_version_invalidation :
    (∀ (users : List User) (tok : Token) (uid tv e : Nat)
       (sc : Option String) (user : User),
      tok.decoded = some ⟨some uid, some tv, sc, e⟩ →
      users.find? (fun u => u.id == uid) = some user →
      1 ≤ user.token_version →
      (get_current_user users tok = .ok user ↔ tv = user.token_version))
    ∧
    (∀ (st : AuthState) (tok : Token) (claims : TokenClaims) (uid : Nat)
       (user : User) (npw : String) (now : Nat),
      tok.decoded = some claims →
      claims.scope = some "pwd_reset" →
      claims.sub = some uid →
      st.users.find? (fun u => u.id == uid) = some user →
      1 ≤ user.token_version →
      (forgot_password_confirm st (some tok) npw now).1.users.find?
          (fun u => u.id == uid) =
        some { user with password := get_password_hash npw,
                         token_version := user.token_version + 1 })
    ∧
    (∀ (st : AuthState) (tok : Token) (claims : TokenClaims) (uid : Nat)
       (user : User) (npw : String) (now : Nat) (told tnew : Token)
       (sc₁ sc₂ : Option String) (e₁ e₂ : Nat),
      tok.decoded = some claims →
      claims.scope = some "pwd_reset" →
      claims.sub = some uid →
      st.users.find? (fun u => u.id == uid) = some user →
      1 ≤ user.token_version →
      told.decoded = some ⟨some uid, some user.token_version, sc₁, e₁⟩ →
      tnew.decoded = some ⟨some uid, some (user.token_version + 1), sc₂, e₂⟩ →
      get_current_user (forgot_password_confirm st (some tok) npw now).1.users told =
        .error (.unauthorized "Credenciais inválidas") ∧
      get_current_user (forgot_password_confirm st (some tok) npw now).1.users tnew =
        .ok { user with password := get_password_hash npw,
                        token_version := user.token_version + 1 }) := by
  refine ⟨?_, ?_, ?_⟩
  · intro users tok uid tv e sc user hdec hfind htv
    unfold get_current_user
    simp only [hdec, hfind, tvOr1_of_pos htv]
    by_cases hc : (tv == user.token_version) = true
    · simp [hc, beq_iff_eq.mp hc]
    · have hne : tv ≠ user.token_version := by simpa using hc
      simp [hc, hne]
  · intro st tok claims uid user npw now hdec hscope hsub hfind htv
    have hmap := find?_map_ite_id st.users uid
      (fun u => { u with password := get_password_hash npw,
                         token_version := tvOr1 u.token_version + 1 })
      (fun u => rfl) hfind
    simp only [] at hmap
    rw [tvOr1_of_pos htv] at hmap
    rw [confirm_users_shape st tok claims uid user npw now hdec hscope hsub hfind]
    exact hmap
  · intro st tok claims uid user npw now told tnew sc₁ sc₂ e₁ e₂
    intro hdec hscope hsub hfind htv hold hnew
    have hfind' : (forgot_password_confirm st (some tok) npw now).1.users.find?
        (fun u => u.id == uid) =
        some { user with password := get_password_hash npw,
                         token_version := user.token_version + 1 } := by
      have hmap := find?_map_ite_id st.users uid
        (fun u => { u with password := get_password_hash npw,
                           token_version := tvOr1 u.token_version + 1 })
        (fun u => rfl) hfind
      simp only [] at hmap
      rw [tvOr1_of_pos htv] at hmap
      rw [confirm_users_shape st tok claims uid user npw now hdec hscope hsub hfind]
      exact hmap
    have h1 : tvOr1 (user.token_version + 1) = user.token_version + 1 := by
      simp [tvOr1]
    constructor
    · unfold get_current_user
      simp only [hold, hfind']
      rw [h1]
      have hne : (user.token_version == user.token_version + 1) = false := by simp
      simp [hne]
    · unfold get_current_user
      simp only [hnew, hfind']
      rw [h1]
      simp

/-- Closed witness for `c3_token_version_invalidation`: a one-user state;
the first conjunct accepts the matching token, the second shows the bump
1 → 2 on confirm, the third rejects the stale token and accepts the fresh
one after the confirm. -/
theorem c3_token_version_invalidation_witness :
    get_current_user [⟨1, "a@x.com", "bcrypt$pw", 1, false, none⟩]
        ⟨"t", some ⟨some 1, some 1, none, 99⟩⟩ =
      .ok ⟨1, "a@x.com", "bcrypt$pw", 1, false, none⟩ ∧
    (forgot_password_confirm ⟨[⟨1, "a@x.com", "bcrypt$pw", 1, false, none⟩], []⟩
        (some ⟨"r", some ⟨some 1, some 1, some "pwd_reset", 0⟩⟩) "npw" 5).1.users.find?
        (fun u => u.id == 1) =
      some ⟨1, "a@x.com", "bcrypt$npw", 2, false, none⟩ ∧
    get_current_user
        (forgot_password_confirm ⟨[⟨1, "a@x.com", "bcrypt$pw", 1, false, none⟩], []⟩
          (some ⟨"r", some ⟨some 1, some 1, some "pwd_reset", 0⟩⟩) "npw" 5).1.users
        ⟨"o", some ⟨some 1, some 1, none, 9⟩⟩ =
      .error (.unauthorized "Credenciais inválidas") ∧
    get_current_user
        (forgot_password_confirm ⟨[⟨1, "a@x.com", "bcrypt$pw", 1, false, none⟩], []⟩
          (some ⟨"r", some ⟨some 1, some 1, some "pwd_reset", 0⟩⟩) "npw" 5).1.users
        ⟨"n", some ⟨some 1, some 2, none, 9⟩⟩ =
      .ok ⟨1, "a@x.com", "bcrypt$npw", 2, false, none⟩ :=
  ⟨(c3_token_version_invalidation.1 [⟨1, "a@x.com", "bcrypt$pw", 1, false, none⟩]
      ⟨"t", some ⟨some 1, some 1, none, 99⟩⟩ 1 1 99 none
      ⟨1, "a@x.com", "bcrypt$pw", 1, false, none⟩ rfl rfl (by decide)).mpr rfl,
   c3_token_version_invalidation.2.1
      ⟨[⟨1, "a@x.com", "bcrypt$pw", 1, false, none⟩], []⟩
      ⟨"r", some ⟨some 1, some 1, some "pwd_reset", 0⟩⟩
      ⟨some 1, some 1, some "pwd_reset", 0⟩ 1
      ⟨1, "a@x.com", "bcrypt$pw", 1, false, none⟩ "npw" 5
      rfl rfl rfl rfl (by decide),
   (c3_token_version_invalidation.2.2
      ⟨[⟨1, "a@x.com", "bcrypt$pw", 1, false, none⟩], []⟩
      ⟨"r", some ⟨some 1, some 1, some "pwd_reset", 0⟩⟩
      ⟨some 1, some 1, some "pwd_reset", 0⟩ 1
      ⟨1, "a@x.com", "bcrypt$pw", 1, false, none⟩ "npw" 5
      ⟨"o", some ⟨some 1, some 1, none, 9⟩⟩ ⟨"n", some ⟨some 1, some 2, none, 9⟩⟩
      none none 9 9 rfl rfl rfl rfl (by decide) rfl rfl).1,
   (c3_token_version_invalidation.2.2
      ⟨[⟨1, "a@x.com", "bcrypt$pw", 1, false, none⟩], []⟩
      ⟨"r", some ⟨some 1, some 1, some "pwd_reset", 0⟩⟩
      ⟨some 1, some 1, some "pwd_reset", 0⟩ 1
      ⟨1, "a@x.com", "bcrypt$pw", 1, false, none⟩ "npw" 5
      ⟨"o", some ⟨some 1, some 1, none, 9⟩⟩ ⟨"n", some ⟨some 1, some 2, none, 9⟩⟩
      none none 9 9 rfl rfl rfl rfl (by decide) rfl rfl).2⟩

end App

namespace App

/-- C4: the resolver follows exactly the documented order and stops at the
first match: a missing team yields NotFound (first conjunct); an owner who
simultaneously has a viewer `TeamMember` row still resolves to role admin
with member_type "owner" — ownership wins, no merging (second conjunct); a
direct active user row returns its own role with member_type "user",
whatever the indirect path would say (third conjunct); and when no path
matches the resolver raises Forbidden (fourth conjunct). -/
theorem c4_resolver_precedence :
    (∀ (db : DB) (u : User) (tid : Nat),
      db.teams.find? (fun t => t.id == tid) = none →
      get_team_member_context db u tid = .error (.notFound "Team not found"))
    ∧
    (∀ (db : DB) (u : User) (tid : Nat) (team : Team) (tm : TeamMember),
      db.teams.find? (fun t => t.id == tid) = some team →
      team.user_id = u.id →
      tm ∈ db.team_members → tm.team_id = tid → tm.member_type = "user" →
      tm.member_id = u.id → tm.role = "viewer" → tm.status = "active" →
      get_team_member_context db u tid =
        .ok ⟨tid, team, .admin, "owner", none, none⟩)
    ∧
    (∀ (db : DB) (u : User) (tid : Nat) (team : Team) (dm : TeamMember)
       (r : TeamRole),
      db.teams.find? (fun t => t.id == tid) = some team →
      team.user_id ≠ u.id →
      direct_member_rows db tid u.id = [dm] →
      TeamRole.ofString dm.role = some r →
      get_team_member_context db u tid = .ok ⟨tid, team, r, "user", none, none⟩)
    ∧
    (∀ (db : DB) (u : User) (tid : Nat) (team : Team),
      db.teams.find? (fun t => t.id == tid) = some team →
      team.user_id ≠ u.id →
      direct_member_rows db tid u.id = [] →
      org_join db tid u.id = [] →
      get_team_member_context db u tid =
        .error (.forbidden "You are not a member of this team")) := by
  refine ⟨?_, ?_, ?_, ?_⟩
  · intro db u tid hfind
    simp [get_team_member_context, hfind]
  · intro db u tid team tm hfind howner _ _ _ _ _ _
    unfold get_team_member_context
    rw [hfind]
    simp [howner]
  · intro db u tid team dm r hfind howner hdirect hrole
    unfold get_team_member_context
    rw [hfind]
    simp [howner, hdirect, scalar_one_or_none, hrole]
  · intro db u tid team hfind howner hdirect hjoin
    unfold get_team_member_context
    rw [hfind]
    simp [howner, hdirect, hjoin, scalar_one_or_none]

/-- Closed witness for `c4_resolver_precedence`: the four conjuncts applied to
four small concrete databases — no team; owner with a conflicting viewer row;
a direct member; and a stranger. -/
theorem c4_resolver_precedence_witness :
    get_team_member_context ⟨[], [], [], [], []⟩
        ⟨1, "a@x.com", "p", 1, false, none⟩ 1 =
      .error (.notFound "Team not found") ∧
    get_team_member_context
        ⟨[], [⟨1, 1, false, false, none⟩],
         [⟨1, 1, "user", 1, "viewer", "active"⟩], [], []⟩
        ⟨1, "a@x.com", "p", 1, false, none⟩ 1 =
      .ok ⟨1, ⟨1, 1, false, false, none⟩, .admin, "owner", none, none⟩ ∧
    get_team_member_context
        ⟨[], [⟨1, 2, false, false, none⟩],
         [⟨1, 1, "user", 1, "member", "active"⟩], [], []⟩
        ⟨1, "a@x.com", "p", 1, false, none⟩ 1 =
      .ok ⟨1, ⟨1, 2, false, false, none⟩, .member, "user", none, none⟩ ∧
    get_team_member_context ⟨[], [⟨1, 2, false, false, none⟩], [], [], []⟩
        ⟨1, "a@x.com", "p", 1, false, none⟩ 1 =
      .error (.forbidden "You are not a member of this team") :=
  ⟨c4_resolver_precedence.1 ⟨[], [], [], [], []⟩
      ⟨1, "a@x.com", "p", 1, false, none⟩ 1 rfl,
   c4_resolver_precedence.2.1
      ⟨[], [⟨1, 1, false, false, none⟩],
       [⟨1, 1, "user", 1, "viewer", "active"⟩], [], []⟩
      ⟨1, "a@x.com", "p", 1, false, none⟩ 1 ⟨1, 1, false, false, none⟩
      ⟨1, 1, "user", 1, "viewer", "active"⟩
      rfl rfl (by decide) rfl rfl rfl rfl rfl,
   c4_resolver_precedence.2.2.1
      ⟨[], [⟨1, 2, false, false, none⟩],
       [⟨1, 1, "user", 1, "member", "active"⟩], [], []⟩
      ⟨1, "a@x.com", "p", 1, false, none⟩ 1 ⟨1, 2, false, false, none⟩
      ⟨1, 1, "user", 1, "member", "active"⟩ .member
      rfl (by decide) rfl rfl,
   c4_resolver_precedence.2.2.2
      ⟨[], [⟨1, 2, false, false, none⟩], [], [], []⟩
      ⟨1, "a@x.com", "p", 1, false, none⟩ 1 ⟨1, 2, false, false, none⟩
      rfl (by decide) rfl rfl⟩

end App

namespace App

/-- C5 counterexample: the claim asserts that `require_team_owner` itself
independently rejects delete/archive of personal teams.  At this concrete
input — the owner of their `personal_team=true` team — `require_team_owner`
returns the team successfully instead of rejecting: the guard checks
ownership only and contains no `personal_team` check. -/
theorem c5_require_team_owner_counterexample :
    require_team_owner
        ⟨[], [⟨1, 1, true, false, none⟩], [], [], []⟩
        ⟨1, "o@x.com", "bcrypt$pw", 1, false, none⟩ 1 =
      .ok ⟨1, 1, true, false, none⟩ :=
  rfl

/-- C5 amended: the delete/archive operation `delete_team` rejects every
`personal_team=true` team for every caller — whoever the caller is and
whatever their role, the call returns an error, and since the archive write
is committed only on the success path the archived flag stays false.
`require_team_owner`, however, resolves ownership only and does not itself
reject personal teams. -/
theorem c5_personal_team_delete_rejected :
    ∀ (db : DB) (u : User) (tid now : Nat) (team : Team),
      db.teams.find? (fun t => t.id == tid) = some team →
      team.personal_team = true →
      ∃ e, delete_team db u tid now = .error e := by
  intro db u tid now team hfind hpersonal
  unfold delete_team
  cases hctx : get_team_member_context db u tid with
  | error e => exact ⟨e, by unfold require_permission; rw [hctx]⟩
  | ok ctx =>
    have hteam : ctx.team = team := by
      have h := (ctx_team_of_ok hctx).1
      rw [hfind] at h
      exact (Option.some.injEq .. ▸ h).symm
    unfold require_permission
    rw [hctx]
    by_cases hp : has_permission ctx.role .team .delete ctx.org_type = true
    · exact ⟨.badRequest "Cannot delete personal teams", by simp [hp, hteam, hpersonal]⟩
    · exact ⟨.forbidden "Insufficient permissions", by simp [hp]⟩

/-- Closed witness for `c5_personal_team_delete_rejected`: the owner of a
personal team attempts the delete; it errors. -/
theorem c5_personal_team_delete_rejected_witness :
    ∃ e, delete_team ⟨[], [⟨1, 1, true, false, none⟩], [], [], []⟩
        ⟨1, "o@x.com", "bcrypt$pw", 1, false, none⟩ 1 77 = .error e :=
  c5_personal_team_delete_rejected
    ⟨[], [⟨1, 1, true, false, none⟩], [], [], []⟩
    ⟨1, "o@x.com", "bcrypt$pw", 1, false, none⟩ 1 77
    ⟨1, 1, true, false, none⟩ rfl rfl

/-- C6: a user with no ownership and no direct row, reachable through an
active organization membership in O where O itself holds an active
`TeamMember` row on the team, is granted the row's role — the organization's
role on the team, independent of the user's own role inside O — with
org_type=O's type; the conclusion also certifies the path: the matched row is
an active organization-typed membership of the team and the user is an active
member of O. -/
theorem c6_indirect_membership :
    ∀ (db : DB) (u : User) (tid : Nat) (team : Team) (tm : TeamMember)
      (org : Organization) (r : TeamRole) (ot : OrganizationType),
      db.teams.find? (fun t => t.id == tid) = some team →
      team.user_id ≠ u.id →
      direct_member_rows db tid u.id = [] →
      (org_join db tid u.id).head? = some (tm, org) →
      TeamRole.ofString tm.role = some r →
      OrganizationType.ofString org.organization_type = some ot →
      get_team_member_context db u tid =
        .ok ⟨tid, team, r, "organization", some org, some ot⟩ ∧
      tm.member_type = "organization" ∧ tm.member_id = org.id ∧
      tm.team_id = tid ∧ tm.status = "active" ∧
      ∃ om, om ∈ db.organization_members ∧ om.organization_id = org.id ∧
        om.user_id = u.id ∧ om.status = "active" := by
  intro db u tid team tm org r ot hfind howner hdirect hhead hrole htype
  have hmem : (tm, org) ∈ org_join db tid u.id :=
    List.mem_of_mem_head? (by simp [hhead])
  obtain ⟨_, _, om, hom, hmt, hmi, homi, htmi, homu, hts, homs⟩ := mem_org_join hmem
  refine ⟨?_, hmt, hmi, htmi, hts, om, hom, homi, homu, homs⟩
  unfold get_team_member_context
  rw [hfind]
  simp [howner, hdirect, hhead, scalar_one_or_none, hrole, htype]

/-- Closed witness for `c6_indirect_membership`: user 1 is an active *member*
of organization 5, organization 5 is an active *admin* of team 1, and user 1
resolves on team 1 to role admin (the organization's role, not the user's)
with org_type client. -/
theorem c6_indirect_membership_witness :
    get_team_member_context
        ⟨[], [⟨1, 9, false, false, none⟩],
         [⟨1, 1, "organization", 5, "admin", "active"⟩],
         [⟨5, "client"⟩], [⟨1, 5, 1, "member", "active"⟩]⟩
        ⟨1, "a@x.com", "p", 1, false, none⟩ 1 =
      .ok ⟨1, ⟨1, 9, false, false, none⟩, .admin, "organization",
           some ⟨5, "client"⟩, some .client⟩ :=
  (c6_indirect_membership
    ⟨[], [⟨1, 9, false, false, none⟩],
     [⟨1, 1, "organization", 5, "admin", "active"⟩],
     [⟨5, "client"⟩], [⟨1, 5, 1, "member", "active"⟩]⟩
    ⟨1, "a@x.com", "p", 1, false, none⟩ 1 ⟨1, 9, false, false, none⟩
    ⟨1, 1, "organization", 5, "admin", "active"⟩ ⟨5, "client"⟩ .admin .client
    rfl (by decide) rfl rfl rfl rfl).1

end App

namespace App

/-- C7 counterexample: the claim says a reset-session token authorizes exactly
one confirm call — a second confirm with the same token must be rejected and
mutate nothing.  At this concrete input the first confirm succeeds (204) and
consumes the record; the second confirm with the very same token succeeds
again (204) and mutates both the password and the token version (1 → 2 → 3):
`forgot_password_confirm` checks only the `scope` claim, never the record or
the token's `tv` binding. -/
theorem c7_reset_token_reuse_counterexample :
    ((forgot_password_confirm
        ⟨[⟨1, "a@x.com", "bcrypt$old", 1, false, none⟩],
         [⟨1, some 1, "a@x.com", some (hash_otp "123456"), some 700,
           true, false, false, some 50, none, 0⟩]⟩
        (some (create_reset_session_token 1 1)) "newpw1" 100).2 = none) ∧
    ((forgot_password_confirm
        (forgot_password_confirm
          ⟨[⟨1, "a@x.com", "bcrypt$old", 1, false, none⟩],
           [⟨1, some 1, "a@x.com", some (hash_otp "123456"), some 700,
             true, false, false, some 50, none, 0⟩]⟩
          (some (create_reset_session_token 1 1)) "newpw1" 100).1
        (some (create_reset_session_token 1 1)) "newpw2" 200).2 = none) ∧
    ((forgot_password_confirm
        (forgot_password_confirm
          ⟨[⟨1, "a@x.com", "bcrypt$old", 1, false, none⟩],
           [⟨1, some 1, "a@x.com", some (hash_otp "123456"), some 700,
             true, false, false, some 50, none, 0⟩]⟩
          (some (create_reset_session_token 1 1)) "newpw1" 100).1
        (some (create_reset_session_token 1 1)) "newpw2" 200).1.users =
      [⟨1, "a@x.com", "bcrypt$newpw2", 3, false, none⟩]) :=
  ⟨rfl, rfl, rfl⟩

/-- C7 amended: a reset-session token is not single-use.  As long as it still
decodes with `scope=pwd_reset` and its subject exists, every further confirm
call with the same token succeeds again: after a first confirm over at most
one unconsumed record, a second confirm with the same token returns success
and sets the password to the new value while incrementing `token_version` a
second time (to the original value plus 2). -/
theorem c7_reset_token_not_single_use :
    ∀ (st : AuthState) (tok : Token) (claims : TokenClaims) (uid : Nat)
      (user : User) (npw npw' : String) (now now' : Nat),
      tok.decoded = some claims →
      claims.scope = some "pwd_reset" →
      claims.sub = some uid →
      st.users.find? (fun u => u.id == uid) = some user →
      1 ≤ user.token_version →
      (unconsumed_for_user st uid).length ≤ 1 →
      (forgot_password_confirm (forgot_password_confirm st (some tok) npw now).1
          (some tok) npw' now').2 = none ∧
      (forgot_password_confirm (forgot_password_confirm st (some tok) npw now).1
          (some tok) npw' now').1.users.find? (fun u => u.id == uid) =
        some { user with password := get_password_hash npw',
                         token_version := user.token_version + 2 } := by
  intro st tok claims uid user npw npw' now now' hdec hscope hsub hfind htv hlen
  have hfind1 : (forgot_password_confirm st (some tok) npw now).1.users.find?
      (fun u => u.id == uid) =
      some { user with password := get_password_hash npw,
                       token_version := user.token_version + 1 } := by
    have hmap := find?_map_ite_id st.users uid
      (fun u => { u with password := get_password_hash npw,
                         token_version := tvOr1 u.token_version + 1 })
      (fun u => rfl) hfind
    simp only [] at hmap
    rw [tvOr1_of_pos htv] at hmap
    rw [confirm_users_shape st tok claims uid user npw now hdec hscope hsub hfind]
    exact hmap
  have hpost := confirm_post st tok claims uid user npw now hdec hscope hsub hfind hlen
  have hlen1 : (unconsumed_for_user (forgot_password_confirm st (some tok) npw now).1
      uid).length ≤ 1 := by
    rw [hpost.2]; simp
  constructor
  · exact (confirm_post _ tok claims uid _ npw' now' hdec hscope hsub hfind1 hlen1).1
  · rw [confirm_users_shape (forgot_password_confirm st (some tok) npw now).1
      tok claims uid _ npw' now' hdec hscope hsub hfind1]
    have hmap2 := find?_map_ite_id
      (forgot_password_confirm st (some tok) npw now).1.users uid
      (fun u => { u with password := get_password_hash npw',
                         token_version := tvOr1 u.token_version + 1 })
      (fun u => rfl) hfind1
    simp only [] at hmap2
    have h1 : tvOr1 (user.token_version + 1) = user.token_version + 1 := by
      simp [tvOr1]
    rw [h1] at hmap2
    exact hmap2

/-- Closed witness for `c7_reset_token_not_single_use` at a one-user state
with one unconsumed record. -/
theorem c7_reset_token_not_single_use_witness :
    (forgot_password_confirm
        (forgot_password_confirm
          ⟨[⟨1, "b@x.com", "bcrypt$o", 3, false, none⟩],
           [⟨1, some 1, "b@x.com", some (hash_otp "654321"), some 900,
             true, false, false, some 10, none, 0⟩]⟩
          (some ⟨"r", some ⟨some 1, some 3, some "pwd_reset", 0⟩⟩) "p1" 20).1
        (some ⟨"r", some ⟨some 1, some 3, some "pwd_reset", 0⟩⟩) "p2" 30).2 = none ∧
    (forgot_password_confirm
        (forgot_password_confirm
          ⟨[⟨1, "b@x.com", "bcrypt$o", 3, false, none⟩],
           [⟨1, some 1, "b@x.com", some (hash_otp "654321"), some 900,
             true, false, false, some 10, none, 0⟩]⟩
          (some ⟨"r", some ⟨some 1, some 3, some "pwd_reset", 0⟩⟩) "p1" 20).1
        (some ⟨"r", some ⟨some 1, some 3, some "pwd_reset", 0⟩⟩) "p2" 30).1.users.find?
        (fun u => u.id == 1) =
      some ⟨1, "b@x.com", "bcrypt$p2", 5, false, none⟩ :=
  c7_reset_token_not_single_use
    ⟨[⟨1, "b@x.com", "bcrypt$o", 3, false, none⟩],
     [⟨1, some 1, "b@x.com", some (hash_otp "654321"), some 900,
       true, false, false, some 10, none, 0⟩]⟩
    ⟨"r", some ⟨some 1, some 3, some "pwd_reset", 0⟩⟩
    ⟨some 1, some 3, some "pwd_reset", 0⟩ 1
    ⟨1, "b@x.com", "bcrypt$o", 3, false, none⟩ "p1" "p2" 20 30
    rfl rfl rfl rfl (by decide) (by decide)

end App

namespace App

/-- C8 counterexample: the claim says every rejected verify call leaves
`otp_verified`, `totp_verified` and `reset_session_issued_at` unchanged and
that `otp_verified` is persisted as true only when the entire verification —
including the TOTP check — succeeds.  At this concrete input (`require_totp`
set, correct OTP, wrong TOTP code) the call is rejected, yet the commit of the
attempts increment flushes the pending `otp_verified = True` assignment as
well: the stored record ends rejected with `otp_verified = true`. -/
theorem c8_totp_failure_counterexample :
    (forgot_password_verify
        ⟨[⟨1, "a@x.com", "bcrypt$pw", 1, true, some "SECRET"⟩],
         [⟨1, some 1, "a@x.com", some (hash_otp "123456"), some 700,
           false, true, false, none, none, 0⟩]⟩
        "a@x.com" "123456" (some "000000") true 100).1.password_resets =
      [⟨1, some 1, "a@x.com", some (hash_otp "123456"), some 700,
        true, true, false, none, none, 1⟩] ∧
    (forgot_password_verify
        ⟨[⟨1, "a@x.com", "bcrypt$pw", 1, true, some "SECRET"⟩],
         [⟨1, some 1, "a@x.com", some (hash_otp "123456"), some 700,
           false, true, false, none, none, 0⟩]⟩
        "a@x.com" "123456" (some "000000") true 100).2 =
      .error (.badRequest "Invalid or missing authenticator code") :=
  ⟨rfl, rfl⟩

/-- C8 amended: the rejection paths of `forgot_password_verify` behave as
follows.  A rate-limited call changes nothing (first conjunct); a call finding
no single unconsumed record changes nothing (second conjunct); an expired
record changes nothing (third conjunct); an OTP mismatch increments exactly
the attempts counter, leaving `otp_verified`, `totp_verified` and
`reset_session_issued_at` unchanged (fourth conjunct); but a TOTP failure
after a successful OTP match increments attempts AND persists
`otp_verified = true` — while still leaving `totp_verified` and
`reset_session_issued_at` unchanged (fifth conjunct). -/
theorem c8_verify_rejection_effects :
    (∀ (st : AuthState) (email otp : String) (totp : Option String) (now : Nat),
      forgot_password_verify st email otp totp false now =
        (st, .error (.tooMany "Too many attempts")))
    ∧
    (∀ (st : AuthState) (email otp : String) (totp : Option String) (now : Nat),
      scalar_one_or_none (unconsumed_for_email st email) = .ok none →
      forgot_password_verify st email otp totp true now =
        (st, .error (.badRequest "Invalid or expired code")))
    ∧
    (∀ (st : AuthState) (email otp : String) (totp : Option String) (now : Nat)
       (pr : PasswordReset) (oh : String) (ex : Nat),
      scalar_one_or_none (unconsumed_for_email st email) = .ok (some pr) →
      pr.otp_hash = some oh →
      pr.otp_expires_at = some ex →
      ex < now →
      forgot_password_verify st email otp totp true now =
        (st, .error (.badRequest "Invalid or expired code")))
    ∧
    (∀ (st : AuthState) (email otp : String) (totp : Option String) (now : Nat)
       (pr : PasswordReset) (oh : String) (ex : Nat),
      scalar_one_or_none (unconsumed_for_email st email) = .ok (some pr) →
      pr.otp_hash = some oh →
      pr.otp_expires_at = some ex →
      ¬ ex < now →
      (otp = "" ∨ verify_otp otp oh = false) →
      forgot_password_verify st email otp totp true now =
        (st.updatePR pr.id (fun q => { q with attempts := q.attempts + 1 }),
         .error (.badRequest "Invalid or expired code")))
    ∧
    (∀ (st : AuthState) (email otp : String) (totp : Option String) (now : Nat)
       (pr : PasswordReset) (oh : String) (ex uid : Nat) (user : User)
       (secret : String),
      scalar_one_or_none (unconsumed_for_email st email) = .ok (some pr) →
      pr.otp_hash = some oh →
      pr.otp_expires_at = some ex →
      ¬ ex < now →
      otp ≠ "" →
      verify_otp otp oh = true →
      pr.user_id = some uid →
      st.users.find? (fun u => u.id == uid) = some user →
      user.two_factor_secret = some secret →
      pr.require_totp = true →
      (totp = none ∨ ∃ code, totp = some code ∧
        (code = "" ∨ verify_totp secret code = false)) →
      forgot_password_verify st email otp totp true now =
        (st.updatePR pr.id (fun q =>
           { q with otp_verified := true, attempts := q.attempts + 1 }),
         .error (.badRequest "Invalid or missing authenticator code"))) := by
  refine ⟨?_, ?_, ?_, ?_, ?_⟩
  · intro st email otp totp now
    rfl
  · intro st email otp totp now hscalar
    simp only [forgot_password_verify, Bool.not_true, Bool.false_eq_true, if_false,
      hscalar]
  · intro st email otp totp now pr oh ex hscalar hh he hex
    simp only [forgot_password_verify, Bool.not_true, Bool.false_eq_true, if_false,
      hscalar, hh, he]
    rw [if_pos hex]
  · intro st email otp totp now pr oh ex hscalar hh he hex hbad
    simp only [forgot_password_verify, Bool.not_true, Bool.false_eq_true, if_false,
      hscalar, hh, he]
    rw [if_neg hex]
    have hcond : (otp == "" || !verify_otp otp oh) = true := by
      rcases hbad with rfl | hv
      · simp
      · simp [hv]
    rw [if_pos hcond]
  · intro st email otp totp now pr oh ex uid user secret
    intro hscalar hh he hex hotp hv huid hfind hsecret hreq htf
    simp only [forgot_password_verify, Bool.not_true, Bool.false_eq_true, if_false,
      hscalar, hh, he]
    rw [if_neg hex]
    have hcond : (otp == "" || !verify_otp otp oh) = false := by
      simp [hotp, hv]
    rw [if_neg (by simp [hcond])]
    simp only [huid, hfind, hreq, if_true, hsecret]
    rcases htf with rfl | ⟨code, rfl, hc⟩
    · rfl
    · have hcond2 : (code == "" || !verify_totp secret code) = true := by
        rcases hc with rfl | hvf
        · simp
        · simp [hvf]
      simp [hcond2]

/-- Closed witness for `c8_verify_rejection_effects`: its five conjuncts
applied at concrete states — rate-limited; empty state; expired record;
wrong OTP; and correct OTP with wrong TOTP. -/
theorem c8_verify_rejection_effects_witness :
    forgot_password_verify ⟨[], []⟩ "a@x.com" "111111" none false 5 =
      (⟨[], []⟩, .error (.tooMany "Too many attempts")) ∧
    forgot_password_verify ⟨[], []⟩ "a@x.com" "111111" none true 5 =
      (⟨[], []⟩, .error (.badRequest "Invalid or expired code")) ∧
    forgot_password_verify
        ⟨[], [⟨1, some 1, "a@x.com", some (hash_otp "123456"), some 10,
              false, false, false, none, none, 0⟩]⟩
        "a@x.com" "123456" none true 50 =
      (⟨[], [⟨1, some 1, "a@x.com", some (hash_otp "123456"), some 10,
             false, false, false, none, none, 0⟩]⟩,
       .error (.badRequest "Invalid or expired code")) ∧
    forgot_password_verify
        ⟨[], [⟨1, some 1, "a@x.com", some (hash_otp "123456"), some 90,
              false, false, false, none, none, 0⟩]⟩
        "a@x.com" "999999" none true 50 =
      ((⟨[], [⟨1, some 1, "a@x.com", some (hash_otp "123456"), some 90,
              false, false, false, none, none, 0⟩]⟩ : AuthState).updatePR 1
        (fun q => { q with attempts := q.attempts + 1 }),
       .error (.badRequest "Invalid or expired code")) ∧
    forgot_password_verify
        ⟨[⟨1, "a@x.com", "bcrypt$pw", 1, true, some "S2"⟩],
         [⟨1, some 1, "a@x.com", some (hash_otp "123456"), some 90,
           false, true, false, none, none, 0⟩]⟩
        "a@x.com" "123456" (some "222222") true 50 =
      ((⟨[⟨1, "a@x.com", "bcrypt$pw", 1, true, some "S2"⟩],
         [⟨1, some 1, "a@x.com", some (hash_otp "123456"), some 90,
           false, true, false, none, none, 0⟩]⟩ : AuthState).updatePR 1
        (fun q => { q with otp_verified := true, attempts := q.attempts + 1 }),
       .error (.badRequest "Invalid or missing authenticator code")) :=
  ⟨c8_verify_rejection_effects.1 ⟨[], []⟩ "a@x.com" "111111" none 5,
   c8_verify_rejection_effects.2.1 ⟨[], []⟩ "a@x.com" "111111" none 5 rfl,
   c8_verify_rejection_effects.2.2.1
     ⟨[], [⟨1, some 1, "a@x.com", some (hash_otp "123456"), some 10,
           false, false, false, none, none, 0⟩]⟩
     "a@x.com" "123456" none 50
     ⟨1, some 1, "a@x.com", some (hash_otp "123456"), some 10,
      false, false, false, none, none, 0⟩ (hash_otp "123456") 10
     rfl rfl rfl (by decide),
   c8_verify_rejection_effects.2.2.2.1
     ⟨[], [⟨1, some 1, "a@x.com", some (hash_otp "123456"), some 90,
           false, false, false, none, none, 0⟩]⟩
     "a@x.com" "999999" none 50
     ⟨1, some 1, "a@x.com", some (hash_otp "123456"), some 90,
      false, false, false, none, none, 0⟩ (hash_otp "123456") 90
     rfl rfl rfl (by decide) (Or.inr (by decide)),
   c8_verify_rejection_effects.2.2.2.2
     ⟨[⟨1, "a@x.com", "bcrypt$pw", 1, true, some "S2"⟩],
      [⟨1, some 1, "a@x.com", some (hash_otp "123456"), some 90,
        false, true, false, none, none, 0⟩]⟩
     "a@x.com" "123456" (some "222222") 50
     ⟨1, some 1, "a@x.com", some (hash_otp "123456"), some 90,
      false, true, false, none, none, 0⟩ (hash_otp "123456") 90 1
     ⟨1, "a@x.com", "bcrypt$pw", 1, true, some "S2"⟩ "S2"
     rfl rfl rfl (by decide) (by decide) (by decide) rfl rfl rfl rfl
     (Or.inr ⟨"222222", rfl, Or.inr (by decide)⟩)⟩

end App

namespace App

/-- C10: two or more unconsumed `PasswordReset` records for one email are
reachable by calling `forgot_password_start` twice within the rate limit
before any confirm (first conjunct: starting from a state with none, two
starts leave exactly two).  On such a state the verify extraction — a
`scalar_one_or_none` over an unlimited multi-row query — fails with
`MultipleResultsFound`, so the request ends in an internal error rather than
the documented rejection or success (second conjunct); the confirm extraction
fails the same way (third conjunct). -/
theorem c10_multiple_unconsumed_internal_error :
    (∀ (st : AuthState) (email otp₁ otp₂ : String) (user : User)
       (now₁ now₂ id₁ id₂ : Nat),
      st.users.find? (fun u => u.email == email) = some user →
      unconsumed_for_email st email = [] →
      (forgot_password_start st email otp₁ true now₁ id₁).2 = none ∧
      (forgot_password_start (forgot_password_start st email otp₁ true now₁ id₁).1
        email otp₂ true now₂ id₂).2 = none ∧
      (unconsumed_for_email
        (forgot_password_start (forgot_password_start st email otp₁ true now₁ id₁).1
          email otp₂ true now₂ id₂).1 email).length = 2)
    ∧
    (∀ (st : AuthState) (email otp : String) (totp : Option String) (now : Nat),
      2 ≤ (unconsumed_for_email st email).length →
      forgot_password_verify st email otp totp true now =
        (st, .error (.internal "MultipleResultsFound")))
    ∧
    (∀ (st : AuthState) (tok : Token) (claims : TokenClaims) (uid : Nat)
       (user : User) (npw : String) (now : Nat),
      tok.decoded = some claims →
      claims.scope = some "pwd_reset" →
      claims.sub = some uid →
      st.users.find? (fun u => u.id == uid) = some user →
      2 ≤ (unconsumed_for_user st uid).length →
      (forgot_password_confirm st (some tok) npw now).2 =
        some (.internal "MultipleResultsFound")) := by
  refine ⟨?_, ?_, ?_⟩
  · intro st email otp₁ otp₂ user now₁ now₂ id₁ id₂ hfind hempty
    have hstep1 : forgot_password_start st email otp₁ true now₁ id₁ =
        ({ st with password_resets := st.password_resets ++
            [⟨id₁, some user.id, email, some (hash_otp otp₁),
              some (now₁ + 600), false, user.two_factor_enabled, false,
              none, none, 0⟩] }, none) := by
      simp [forgot_password_start, hfind]
    refine ⟨by rw [hstep1], ?_, ?_⟩
    · rw [hstep1]
      simp [forgot_password_start, hfind]
    · rw [hstep1]
      simp only [forgot_password_start]
      rw [if_neg (by simp)]
      have hfind2 : ({ st with password_resets := st.password_resets ++
          [⟨id₁, some user.id, email, some (hash_otp otp₁),
            some (now₁ + 600), false, user.two_factor_enabled, false,
            none, none, 0⟩] } : AuthState).users.find?
          (fun u => u.email == email) = some user := hfind
      rw [hfind2]
      simp only [unconsumed_for_email] at hempty ⊢
      simp [List.filter_append, hempty]
  · intro st email otp totp now hlen
    have hscalar := scalar_error_of_two (l := unconsumed_for_email st email) hlen
    simp only [forgot_password_verify, Bool.not_true, Bool.false_eq_true, if_false,
      hscalar]
  · intro st tok claims uid user npw now hdec hscope hsub hfind hlen
    simp only [unconsumed_for_user] at hlen
    have hscalar := scalar_error_of_two
      (l := st.password_resets.filter
        (fun pr => pr.user_id == some uid && pr.consumed_at == none)) hlen
    simp only [forgot_password_confirm, hdec, hscope, hsub, hfind, bne_self_eq_false,
      Bool.false_eq_true, if_false, unconsumed_for_user]
    rw [hscalar]

/-- Closed witness for `c10_multiple_unconsumed_internal_error`: two starts on
a one-user state leave two unconsumed records; verify and confirm on a
two-record state both end in the internal multiple-results error. -/
theorem c10_multiple_unconsumed_internal_error_witness :
    (unconsumed_for_email
      (forgot_password_start
        (forgot_password_start ⟨[⟨1, "c@x.com", "bcrypt$pw", 1, false, none⟩], []⟩
          "c@x.com" "111111" true 10 1).1
        "c@x.com" "222222" true 20 2).1 "c@x.com").length = 2 ∧
    forgot_password_verify
        ⟨[⟨1, "c@x.com", "bcrypt$pw", 1, false, none⟩],
         [⟨1, some 1, "c@x.com", some (hash_otp "111111"), some 610,
           false, false, false, none, none, 0⟩,
          ⟨2, some 1, "c@x.com", some (hash_otp "222222"), some 620,
           false, false, false, none, none, 0⟩]⟩
        "c@x.com" "111111" none true 50 =
      (⟨[⟨1, "c@x.com", "bcrypt$pw", 1, false, none⟩],
        [⟨1, some 1, "c@x.com", some (hash_otp "111111"), some 610,
          false, false, false, none, none, 0⟩,
         ⟨2, some 1, "c@x.com", some (hash_otp "222222"), some 620,
          false, false, false, none, none, 0⟩]⟩,
       .error (.internal "MultipleResultsFound")) ∧
    (forgot_password_confirm
        ⟨[⟨1, "c@x.com", "bcrypt$pw", 1, false, none⟩],
         [⟨1, some 1, "c@x.com", some (hash_otp "111111"), some 610,
           false, false, false, none, none, 0⟩,
          ⟨2, some 1, "c@x.com", some (hash_otp "222222"), some 620,
           false, false, false, none, none, 0⟩]⟩
        (some ⟨"r", some ⟨some 1, some 1, some "pwd_reset", 0⟩⟩) "np" 99).2 =
      some (.internal "MultipleResultsFound") :=
  ⟨(c10_multiple_unconsumed_internal_error.1
      ⟨[⟨1, "c@x.com", "bcrypt$pw", 1, false, none⟩], []⟩
      "c@x.com" "111111" "222222" ⟨1, "c@x.com", "bcrypt$pw", 1, false, none⟩
      10 20 1 2 rfl rfl).2.2,
   c10_multiple_unconsumed_internal_error.2.1
      ⟨[⟨1, "c@x.com", "bcrypt$pw", 1, false, none⟩],
       [⟨1, some 1, "c@x.com", some (hash_otp "111111"), some 610,
         false, false, false, none, none, 0⟩,
        ⟨2, some 1, "c@x.com", some (hash_otp "222222"), some 620,
         false, false, false, none, none, 0⟩]⟩
      "c@x.com" "111111" none 50 (by decide),
   c10_multiple_unconsumed_internal_error.2.2
      ⟨[⟨1, "c@x.com", "bcrypt$pw", 1, false, none⟩],
       [⟨1, some 1, "c@x.com", some (hash_otp "111111"), some 610,
         false, false, false, none, none, 0⟩,
        ⟨2, some 1, "c@x.com", some (hash_otp "222222"), some 620,
         false, false, false, none, none, 0⟩]⟩
      ⟨"r", some ⟨some 1, some 1, some "pwd_reset", 0⟩⟩
      ⟨some 1, some 1, some "pwd_reset", 0⟩ 1
      ⟨1, "c@x.com", "bcrypt$pw", 1, false, none⟩ "np" 99
      rfl rfl rfl rfl (by decide)⟩

end App
